import Mathlib

/-!
Verification development for the research-hub enrichment pipeline.

This file gives a shallow embedding, in Lean 4, of the parts of the
`backend/api` Python code that the specification's claims are about:

* `api/services/title_utils.py` (title cleaning and truncation heuristics),
* `api/services/enrichment_service.py` (paper enrichment service),
* `api/management/commands/enrich_papers.py` (multi-source cascade command),
* `api/services/researcher_enrichment_service.py` (researcher merge and
  data-quality score).

Python strings are modelled as `List Char` (wrapped in `String` at the
boundaries), Python `None`-able values as `Option`, dictionaries as
structures whose fields are the keys the code actually reads, and the
Django ORM as explicit lists of rows threaded through the functions.
Code that can raise returns `Except String`/`Option` values.
-/

namespace ResearchHub

/-! ## Python string primitives -/

/-- The straight double-quote character (U+0022). -/
def dquote : Char := Char.ofNat 34

/-- The straight single-quote character (U+0027). -/
def squote : Char := Char.ofNat 39

/-- The en-dash character (U+2013), a key of the replacement table. -/
def enDash : Char := Char.ofNat 0x2013

/-- The em-dash character (U+2014), a key of the replacement table. -/
def emDash : Char := Char.ofNat 0x2014

/-- Characters Python treats as whitespace: the ASCII whitespace set plus
the common Unicode whitespace code points (`str.strip`, `str.split` and the
regex class `\s` all use this set). -/
def pyWhitespace : List Char :=
  [' ', '\t', '\n', '\r', Char.ofNat 0x0b, Char.ofNat 0x0c,
   Char.ofNat 0x1c, Char.ofNat 0x1d, Char.ofNat 0x1e, Char.ofNat 0x1f,
   Char.ofNat 0x85, Char.ofNat 0xa0, Char.ofNat 0x1680,
   Char.ofNat 0x2000, Char.ofNat 0x2001, Char.ofNat 0x2002, Char.ofNat 0x2003,
   Char.ofNat 0x2004, Char.ofNat 0x2005, Char.ofNat 0x2006, Char.ofNat 0x2007,
   Char.ofNat 0x2008, Char.ofNat 0x2009, Char.ofNat 0x200a,
   Char.ofNat 0x2028, Char.ofNat 0x2029, Char.ofNat 0x202f,
   Char.ofNat 0x205f, Char.ofNat 0x3000]

/-- Whether a character is Python whitespace. -/
def pyIsSpace (c : Char) : Bool := pyWhitespace.contains c

/-- Python `str.lstrip()` on a character list. -/
def pyLstrip (l : List Char) : List Char := l.dropWhile pyIsSpace

/-- Python `str.rstrip()` on a character list. -/
def pyRstrip (l : List Char) : List Char :=
  (l.reverse.dropWhile pyIsSpace).reverse

/-- Python `str.strip()` on a character list. -/
def pyStrip (l : List Char) : List Char := pyRstrip (pyLstrip l)

/-- Python `str.rstrip(chars)` on a character list. -/
def pyRstripChars (l : List Char) (cs : List Char) : List Char :=
  (l.reverse.dropWhile (fun c => cs.contains c)).reverse

/-- A regex word character (`\w`): alphanumeric or underscore.  The Python
`re` module also counts non-ASCII letters; titles handled by the pipeline
are ASCII so the alphanumeric approximation is exact on the inputs used. -/
def isWordChar (c : Char) : Bool := c.isAlphanum || c = '_'

/-- True when the position at the head of `l` is a word boundary coming
from a word character, i.e. the next character (if any) is not a word
character.  This is the `\b` check after a literal ending in a word char. -/
def noWordAt (l : List Char) : Bool :=
  match l with
  | [] => true
  | c :: _ => !isWordChar c

/-- Python truthiness of an optional string (`None` and `""` are falsy). -/
def strT (o : Option String) : Bool := o.getD "" ≠ ""

/-- Python truthiness of an optional integer (`None` and `0` are falsy). -/
def intT (o : Option Int) : Bool := o.getD 0 ≠ 0

/-- Python `x or y` for optional integers: `x` if it is truthy, else `y`. -/
def pyOrInt (a b : Option Int) : Option Int := if intT a then a else b

/-- Python `x or y` for optional strings: `x` if it is truthy, else `y`. -/
def pyOrStr (a b : Option String) : Option String := if strT a then a else b

/-- Character-wise lower-casing (Python `str.lower` on the inputs the
pipeline handles; spelled out so that it evaluates by kernel reduction). -/
def strLower (s : String) : String := ⟨s.data.map Char.toLower⟩

/-- Case-insensitive string comparison (Django `name__iexact`). -/
def iexact (a b : String) : Bool := strLower a = strLower b

/-- Whether `sub` occurs inside `hay` (Python `sub in hay`). -/
def listIsInfix (sub : List Char) : List Char → Bool
  | [] => sub.isPrefixOf []
  | c :: cs => sub.isPrefixOf (c :: cs) || listIsInfix sub cs

/-! ## `title_utils.py`: `fix_common_replacements`

The Python function applies `re.sub(pattern, replacement, ...)` for each
entry of a dict, in insertion order.  Each substitution is embedded as a
left-to-right scan over the character list; `subScan` is the generic
scanner and the `m...` functions below are the per-pattern matchers.  A
matcher receives the flag "previous character is a word character" (for
`\b`) and the text at the current position, and returns the replacement
text together with the number of characters consumed beyond the first. -/

/-- Generic `re.sub` scan.  `skip` counts characters of a previous match
still to be consumed without output; the `Bool` argument tells whether the
previous character of the original text was a word character. -/
def subScan (m : Bool → List Char → Option (List Char × Nat)) :
    Nat → Bool → List Char → List Char
  | _, _, [] => []
  | Nat.succ skip, _, c :: cs => subScan m skip (isWordChar c) cs
  | 0, prev, c :: cs =>
    match m prev (c :: cs) with
    | some (repl, k) => repl ++ subScan m k (isWordChar c) cs
    | none => c :: subScan m 0 (isWordChar c) cs

/-- Lookahead of the pattern `\bAl\b(?=\s+(at|in|for|and|agents|tools|systems|models))`:
after at least one whitespace character, one of the alternatives must
start (the lookahead consumes nothing, and a following word character is
allowed because the alternation carries no closing boundary). -/
def lookaheadAltWords (l : List Char) : Bool :=
  let ws := l.takeWhile pyIsSpace
  let rest := l.drop ws.length
  ws.length > 0 &&
    (["at", "in", "for", "and", "agents", "tools", "systems", "models"].any
      (fun w => w.data.isPrefixOf rest))

/-- Matcher for `\bAl\b(?=\s+(at|in|for|and|agents|tools|systems|models))`
replaced by `AI`.  The trailing `\b` of `Al` is implied by the whitespace
the lookahead requires. -/
def mAlLookahead (prev : Bool) (l : List Char) : Option (List Char × Nat) :=
  if !prev && ("Al".data.isPrefixOf l) && lookaheadAltWords (l.drop 2) then
    some ("AI".data, 1)
  else none

/-- Matcher for a literal with `\b` on both sides (used for
`\bGenerative Al\b`, `\bGpts\b`, `\bGPTS\b`). -/
def mWordLit (lit repl : String) (prev : Bool) (l : List Char) :
    Option (List Char × Nat) :=
  if !prev && lit.data ≠ [] && lit.data.isPrefixOf l &&
      noWordAt (l.drop lit.data.length) then
    some (repl.data, lit.data.length - 1)
  else none

/-- Matcher for a literal with `\b` only in front (used for `\bAl-`,
whose final `-` needs no closing boundary). -/
def mLeadLit (lit repl : String) (prev : Bool) (l : List Char) :
    Option (List Char × Nat) :=
  if !prev && lit.data ≠ [] && lit.data.isPrefixOf l then
    some (repl.data, lit.data.length - 1)
  else none

/-- After the literal `Al`, parse `\s+agents\b`; returns the number of
characters this tail consumes. -/
def alAgentsTail (l : List Char) : Option Nat :=
  let ws := l.takeWhile pyIsSpace
  if ws.length = 0 then none
  else
    let rest := l.drop ws.length
    if ("agents".data.isPrefixOf rest) && noWordAt (rest.drop 6) then
      some (ws.length + 6)
    else none

/-- Matcher for `\bAl\s+agents\b` replaced by `AI agents`. -/
def mAlAgents (prev : Bool) (l : List Char) : Option (List Char × Nat) :=
  if !prev && ("Al".data.isPrefixOf l) then
    (alAgentsTail (l.drop 2)).map (fun k => ("AI agents".data, 1 + k))
  else none

/-- Plain single-character substitution (quote and dash table entries). -/
def replaceChar (a b : Char) (l : List Char) : List Char :=
  l.map (fun c => if c = a then b else c)

/-- Embedding of `re.sub(r"\s+", " ", ...)`: every maximal whitespace run becomes one
space.  The flag records whether the previous character was whitespace. -/
def collapseWsGo : Bool → List Char → List Char
  | _, [] => []
  | inWs, c :: cs =>
    if pyIsSpace c then
      if inWs then collapseWsGo true cs else ' ' :: collapseWsGo true cs
    else c :: collapseWsGo false cs

/-- Collapse whitespace runs to single spaces. -/
def collapseWs (l : List Char) : List Char := collapseWsGo false l

/-- Embedding of `fix_common_replacements`: the eleven substitutions of the table, in
dict insertion order.  The two quote entries of the source map the
straight quote characters to themselves (the table repeats each key, so a
single identity substitution per quote remains). -/
def fix_common_replacements (l : List Char) : List Char :=
  let r1 := subScan mAlLookahead 0 false l
  let r2 := subScan (mWordLit "Generative Al" "Generative AI") 0 false r1
  let r3 := subScan (mLeadLit "Al-" "AI-") 0 false r2
  let r4 := subScan mAlAgents 0 false r3
  let r5 := subScan (mWordLit "Gpts" "GPTs") 0 false r4
  let r6 := subScan (mWordLit "GPTS" "GPTs") 0 false r5
  let r7 := replaceChar dquote dquote r6
  let r8 := replaceChar squote squote r7
  let r9 := replaceChar enDash '-' r8
  let r10 := replaceChar emDash '-' r9
  collapseWs r10

/-! ## `title_utils.py`: truncation and working-paper markers -/

/-- Python `l.endswith(s)`. -/
def endsWith (s : String) (l : List Char) : Bool := s.data.isSuffixOf l

/-- Python `title[:-n]` for positive `n` (drop the last `n` characters). -/
def dropLastN (l : List Char) (n : Nat) : List Char := l.take (l.length - n)

/-- The last whitespace-separated token of the text, i.e. `title.split()[-1]`
(empty when the text has no non-whitespace character, i.e. `split()` is
empty). -/
def lastSplitToken (l : List Char) : List Char :=
  (((pyRstrip l).reverse.takeWhile (fun c => !pyIsSpace c)).reverse)

/-- Embedding of `remove_truncation`: strip a trailing ellipsis, or a final period when
the last token is at most two characters long (a likely truncation). -/
def remove_truncation (l : List Char) : List Char :=
  if endsWith "..." l then pyStrip (dropLastN l 3)
  else if endsWith ".." l then pyStrip (dropLastN l 2)
  else if endsWith "." l then
    let lastTok := lastSplitToken l
    if lastTok ≠ [] && lastTok.length ≤ 2 then pyStrip (dropLastN l 1) else l
  else l

/-- Consume one character matching `c` case-insensitively. -/
def eatCI (c : Char) : List Char → Option (List Char)
  | [] => none
  | x :: r => if x.toLower = c then some r else none

/-- Consume one exact character. -/
def eatCh (c : Char) : List Char → Option (List Char)
  | [] => none
  | x :: r => if x = c then some r else none

/-- Consume one or more decimal digits (`\d+`). -/
def eatDigits1 (l : List Char) : Option (List Char) :=
  if (l.takeWhile Char.isDigit).length = 0 then none
  else some (l.dropWhile Char.isDigit)

/-- Consume every character of a literal case-insensitively. -/
def eatLitCI (lit : String) (l : List Char) : Option (List Char) :=
  lit.data.foldlM (fun acc c => eatCI c acc) l

/-- Whether the whole remaining text matches `\s*\(No\.\s*w\d+\)\s*$`
(case-insensitively). -/
def matchNoW (l : List Char) : Bool :=
  (((((((some (l.dropWhile pyIsSpace)).bind (eatCh '(')).bind
      (eatLitCI "no")).bind (eatCh '.')).map pyLstrip).bind
      (eatCI 'w')).bind eatDigits1).bind (eatCh ')')
    |>.map pyLstrip |>.any (fun r => r.isEmpty)

/-- Whether the whole remaining text matches `\s*\[NBER\s+w\d+\]\s*$`. -/
def matchNberW (l : List Char) : Bool :=
  ((((((some (l.dropWhile pyIsSpace)).bind (eatCh '[')).bind
      (eatLitCI "nber")).bind
      (fun r => if pyIsSpace (r.headD 'x') then some (pyLstrip r) else none)).bind
      (eatCI 'w')).bind eatDigits1).bind (eatCh ']')
    |>.map pyLstrip |>.any (fun r => r.isEmpty)

/-- Whether the whole remaining text matches
`\s*\(Working\s+Paper\)\s*$` (case-insensitively). -/
def matchWorkingPaper (openB closeB : Char) (l : List Char) : Bool :=
  ((((some (l.dropWhile pyIsSpace)).bind (eatCh openB)).bind
      (eatLitCI "working")).bind
      (fun r => if pyIsSpace (r.headD 'x') then some (pyLstrip r) else none)).bind
      (eatLitCI "paper") |>.bind (eatCh closeB)
    |>.map pyLstrip |>.any (fun r => r.isEmpty)

/-- Embedding of `re.sub` for an end-anchored pattern: delete the suffix starting at the
leftmost position where the end-anchored match succeeds. -/
def stripEndAnchored (m : List Char → Bool) : List Char → List Char
  | [] => []
  | c :: cs => if m (c :: cs) then [] else c :: stripEndAnchored m cs

/-- Embedding of `remove_working_paper_numbers`: the four end-anchored substitutions,
in order, followed by `strip()`. -/
def remove_working_paper_numbers (l : List Char) : List Char :=
  pyStrip
    (stripEndAnchored (matchWorkingPaper '[' ']')
      (stripEndAnchored (matchWorkingPaper '(' ')')
        (stripEndAnchored matchNberW
          (stripEndAnchored matchNoW l))))

/-- Embedding of `normalize_whitespace`: collapse whitespace runs and strip. -/
def normalize_whitespace (l : List Char) : List Char :=
  pyStrip (collapseWs l)

/-- Embedding of `clean_title` on character lists, composing the stages exactly as the
source does. -/
def cleanTitleL (l : List Char) : List Char :=
  if l = [] then []
  else
    let c0 := pyStrip l
    let c1 := fix_common_replacements c0
    let c2 := remove_truncation c1
    let c3 := remove_working_paper_numbers c2
    let c4 := normalize_whitespace c3
    pyRstripChars c4 [',', ';', ':']

/-- Embedding of `clean_title` on strings. -/
def clean_title (s : String) : String := ⟨cleanTitleL s.data⟩

/-- Embedding of `is_likely_truncated`.  The source indexes `title[-1]` after only the
ellipsis checks, so an input that strips to the empty string raises
`IndexError`; the raised exception is modelled as `none`. -/
def is_likely_truncated (s : String) : Option Bool :=
  let t := pyStrip s.data
  if endsWith "..." t || endsWith ".." t then some true
  else
    match t.getLast? with
    | none => none
    | some c =>
      if !(['.', '!', '?'].contains c) then some true
      else if t.length < 20 then some true
      else some false

/-! ## Data model

Rows of the Django models, restricted to the fields the enrichment code
reads or writes.  Nullable columns are `Option`; integer metric columns
default to `0`; JSON list columns are lists.  The `raw_data` JSON blob is
tracked by its set of source keys (the enrichment code only ever inserts
a payload under a source-name key; no claim depends on payload contents). -/

/-- A `research_concepts` entry: the code only reads the `concept` key and
guards against entries that are `None` or not a dict (both collapse to a
missing concept here). -/
structure ConceptDict where
  concept : Option String := none
  deriving DecidableEq, Repr

/-- A stored paper row (`api.models.Paper`). -/
structure Paper where
  id : Nat
  title : String := ""
  doi : Option String := none
  abstract : Option String := none
  publication_date : Option String := none
  journal : Option String := none
  citation_count : Int := 0
  keywords : List String := []
  url : String := ""
  semantic_scholar_id : Option String := none
  openalex_id : Option String := none
  raw_data : List String := []
  deriving DecidableEq, Repr

/-- A stored researcher row (`api.models.Researcher`). -/
structure Researcher where
  id : Nat
  name : String := ""
  affiliation : Option String := none
  current_position : Option String := none
  affiliation_history : List String := []
  aliases : List String := []
  orcid_id : Option String := none
  semantic_scholar_id : Option String := none
  openalex_id : Option String := none
  scopus_id : Option String := none
  h_index : Int := 0
  i10_index : Int := 0
  paper_count : Int := 0
  total_citations : Int := 0
  research_interests : List String := []
  research_concepts : List (Option ConceptDict) := []
  primary_research_area : Option String := none
  url : Option String := none
  avatar_url : Option String := none
  summary : Option String := none
  data_quality_score : Nat := 0
  last_enriched : Option Nat := none
  data_sources : List String := []
  raw_data : List String := []
  deriving DecidableEq, Repr

/-- A stored authorship row (`api.models.Authorship`), keyed by the
(paper, researcher) pair. -/
structure Authorship where
  paper_id : Nat
  researcher_id : Nat
  author_position : String := ""
  contribution_role : String := ""
  summary : String := ""
  deriving DecidableEq, Repr

/-- The persistent store: the tables the enrichment code touches, plus the
id the next `Researcher.objects.create` will be given. -/
structure Db where
  papers : List Paper := []
  researchers : List Researcher := []
  authorships : List Authorship := []
  nextResearcherId : Nat := 0
  deriving DecidableEq, Repr

/-- Insert a source key into a raw-data blob (Python dict assignment under
the key: the key set gains the key, an existing key keeps its place). -/
def rawInsert (keys : List String) (k : String) : List String :=
  if keys.contains k then keys else keys ++ [k]

/-! ## Normalized source records

Shapes of the dicts the adapters hand to the enrichment code, restricted
to the keys it reads.  A missing key is `none`; `.get(k, d)` is `getD`. -/

/-- An entry of a candidate's author list (`authors` of a normalized
paper): the keys read by either `_process_authors`. -/
structure AuthorData where
  authorId : Option String := none
  name : String := ""
  openalex_id : Option String := none
  orcid : Option String := none
  affiliation : Option String := none
  institutions : List String := []
  deriving DecidableEq, Repr

/-- A Semantic Scholar paper record as the adapter normalizes it. -/
structure S2PaperData where
  paper_id : Option String := none
  doi : Option String := none
  abstract : Option String := none
  publication_date : Option String := none
  venue : Option String := none
  citation_count : Option Int := none
  keywords : List String := []
  url : Option String := none
  authors : List AuthorData := []
  deriving DecidableEq, Repr

/-- A Semantic Scholar author-details record
(`SemanticScholarService.get_author_details`). -/
structure S2AuthorDetails where
  author_id : Option String := none
  affiliation : Option String := none
  h_index : Option Int := none
  paper_count : Option Int := none
  citation_count : Option Int := none
  orcid : Option String := none
  homepage : Option String := none
  deriving DecidableEq, Repr

/-! ## `enrichment_service.py`: the paper enrichment service

External calls are oracles returning `Except String (Option _)`: `.error`
is a raised exception, `.ok none` is "not found".  Both `enrich_paper`
and the helpers it calls run inside one `@transaction.atomic` block whose
exceptions are caught *inside* the block, so a raise rolls nothing back:
the state functions below return the store as already written at the
moment of the raise, together with the `Except` outcome. -/

/-- The external calls `enrich_paper` can make. -/
structure PaperOracles where
  s2ByDoi : String → Except String (Option S2PaperData)
  s2ByTitle : String → Except String (Option S2PaperData)
  s2AuthorDetails : String → Except String (Option S2AuthorDetails)
  oaAbstractByDoi : String → Except String (Option String)
  oaAbstractByTitle : String → Except String (Option String)

/-- The result dict of `enrich_paper`. -/
structure PaperEnrichResults where
  success : Bool := false
  enriched : Bool := false
  abstract_source : Option String := none
  researchers_created : Nat := 0
  researchers_updated : Nat := 0
  authorships_created : Nat := 0
  errors : List String := []
  deriving DecidableEq, Repr

/-- Embedding of `Researcher.objects.filter(semantic_scholar_id=sid).first()`. -/
def findResearcherByS2Id (db : Db) (sid : String) : Option Researcher :=
  db.researchers.find? (fun r => r.semantic_scholar_id == some sid)

/-- Embedding of `Researcher.objects.filter(openalex_id=oid).first()`. -/
def findResearcherByOpenalexId (db : Db) (oid : String) : Option Researcher :=
  db.researchers.find? (fun r => r.openalex_id == some oid)

/-- Embedding of `Researcher.objects.filter(orcid_id=orc).first()`. -/
def findResearcherByOrcid (db : Db) (orc : String) : Option Researcher :=
  db.researchers.find? (fun r => r.orcid_id == some orc)

/-- Embedding of `Researcher.objects.filter(name__iexact=nm).first()`. -/
def findResearcherByName (db : Db) (nm : String) : Option Researcher :=
  db.researchers.find? (fun r => iexact r.name nm)

/-- Replace a researcher row by id (`researcher.save()` on an existing
row). -/
def saveResearcher (db : Db) (r : Researcher) : Db :=
  { db with researchers := db.researchers.map (fun q => if q.id == r.id then r else q) }

/-- Append a fresh researcher row (`Researcher.objects.create`). -/
def createResearcher (db : Db) (mk : Nat → Researcher) : Db × Researcher :=
  let r := mk db.nextResearcherId
  ({ db with researchers := db.researchers ++ [r],
             nextResearcherId := db.nextResearcherId + 1 }, r)

/-- Replace a paper row by id (`paper.save()`). -/
def savePaper (db : Db) (p : Paper) : Db :=
  { db with papers := db.papers.map (fun q => if q.id == p.id then p else q) }

/-- Python `name.replace(" ", "+")` (single-character pattern). -/
def replaceSpaces (name : String) : String :=
  ⟨name.data.map (fun c => if c = ' ' then '+' else c)⟩

/-- The generated placeholder avatar URL of the paper service. -/
def avatarUrlFor (name : String) : String :=
  "https://ui-avatars.com/api/?name=" ++ replaceSpaces name ++
    "&background=635BFF&color=fff"

/-- The Semantic Scholar author page URL. -/
def s2AuthorUrl (aid : String) : String :=
  "https://www.semanticscholar.org/author/" ++ aid

/-- Python `x[:n]` on a string. -/
def strTake (s : String) (n : Nat) : String := ⟨s.data.take n⟩

/-- Length of an optional string after `strip()` (used for the
`len(x.strip()) > 50` abstract checks). -/
def stripLen (o : Option String) : Nat := (pyStrip (o.getD "").data).length

/-- The placeholder-abstract test `x.startswith("This paper examines")`
applied to a stored abstract (`None` does not start with anything). -/
def isPlaceholderAbstract (o : Option String) : Bool :=
  "This paper examines".data.isPrefixOf (o.getD "").data

/-- The first half of `_get_or_create_researcher`: lookup by Semantic
Scholar author id, then by case-insensitive name.  (The service path never
consults ORCID.) -/
def resolveResearcherService (db : Db) (author_id : Option String)
    (author_name : String) : Option Researcher :=
  let byId := if strT author_id then findResearcherByS2Id db (author_id.getD "") else none
  match byId with
  | some r => some r
  | none => findResearcherByName db author_name

/-- Embedding of `_get_or_create_researcher`: resolve or create a researcher for one
author.  The author-details fetch can raise; a raise leaves the store
unchanged (in the backfill branch the in-memory id assignment is saved
only when details arrived, exactly as in the source). -/
def getOrCreateResearcher (ods : String → Except String (Option S2AuthorDetails))
    (db : Db) (author_id : Option String) (author_name : String)
    (res : PaperEnrichResults) :
    Except String (Db × PaperEnrichResults × Researcher) :=
  match resolveResearcherService db author_id author_name with
  | none => do
    let details ← if strT author_id then ods (author_id.getD "") else .ok none
    match details with
    | some d =>
      let (db1, r) := createResearcher db (fun i =>
        { id := i
          name := author_name
          semantic_scholar_id := author_id
          affiliation := some (d.affiliation.getD "")
          h_index := d.h_index.getD 0
          orcid_id := d.orcid
          url := some (if d.homepage.getD "" ≠ "" then d.homepage.getD ""
                       else s2AuthorUrl (author_id.getD ""))
          avatar_url := some (avatarUrlFor author_name)
          summary := some (author_name ++ " is a researcher in the field of artificial intelligence and organizational behavior.")
          raw_data := ["semantic_scholar"] })
      .ok (db1, { res with researchers_created := res.researchers_created + 1 }, r)
    | none =>
      let (db1, r) := createResearcher db (fun i =>
        { id := i
          name := author_name
          semantic_scholar_id := author_id
          affiliation := some ""
          url := some (if strT author_id then s2AuthorUrl (author_id.getD "") else "")
          avatar_url := some (avatarUrlFor author_name)
          summary := some (author_name ++ " is a researcher.")
          raw_data := ["semantic_scholar"] })
      .ok (db1, { res with researchers_created := res.researchers_created + 1 }, r)
  | some r =>
    if strT author_id && !strT r.semantic_scholar_id then do
      let details ← ods (author_id.getD "")
      match details with
      | some d =>
        let r1 := { r with
          semantic_scholar_id := author_id
          affiliation := if !strT r.affiliation && strT d.affiliation
                         then some (d.affiliation.getD "") else r.affiliation
          h_index := if r.h_index = 0 then d.h_index.getD 0 else r.h_index
          orcid_id := if !strT r.orcid_id && strT d.orcid then d.orcid else r.orcid_id
          raw_data := rawInsert r.raw_data "semantic_scholar" }
        .ok (saveResearcher db r1,
             { res with researchers_updated := res.researchers_updated + 1 }, r1)
      | none =>
        -- the id was assigned on the in-memory object only; without
        -- details there is no save, so the store keeps the old row
        .ok (db, res, { r with semantic_scholar_id := author_id })
    else .ok (db, res, r)

/-- The loop body of `_process_authors`: authors in order, blank names
skipped, authorship upserted by (paper, researcher).  A raise from the
details oracle stops the loop keeping all rows already written. -/
def authorLoopService (ods : String → Except String (Option S2AuthorDetails))
    (paper : Paper) :
    Db → PaperEnrichResults → Nat → List AuthorData →
    Db × PaperEnrichResults × Except String Unit
  | db, res, _, [] => (db, res, .ok ())
  | db, res, idx, a :: rest =>
    let nm : String := ⟨pyStrip a.name.data⟩
    if nm = "" then authorLoopService ods paper db res (idx + 1) rest
    else
      match getOrCreateResearcher ods db a.authorId nm res with
      | .error e => (db, res, .error e)
      | .ok (db1, res1, r) =>
        if db1.authorships.any (fun x => x.paper_id == paper.id && x.researcher_id == r.id) then
          authorLoopService ods paper db1 res1 (idx + 1) rest
        else
          let row : Authorship :=
            { paper_id := paper.id
              researcher_id := r.id
              author_position := if idx = 0 then "First Author" else "Co-author"
              contribution_role := if idx = 0 then "Research design and methodology"
                                   else "Data analysis and manuscript preparation"
              summary := "Contributed to research on " ++ strTake paper.title 100 ++ "..." }
          authorLoopService ods paper
            { db1 with authorships := db1.authorships ++ [row] }
            { res1 with authorships_created := res1.authorships_created + 1 }
            (idx + 1) rest

/-- Embedding of `_process_authors` of the service: the Author-List Safety Guard
(reject above 50, truncate to the first author above 10), then the loop. -/
def processAuthorsService (ods : String → Except String (Option S2AuthorDetails))
    (db : Db) (paper : Paper) (authors : List AuthorData)
    (res : PaperEnrichResults) :
    Db × PaperEnrichResults × Except String Unit :=
  let n := authors.length
  if n > 50 then
    (db, { res with errors := res.errors ++
            ["Too many authors (" ++ toString n ++ "), rejected"] }, .ok ())
  else
    let authors1 := if n > 10 then authors.take 1 else authors
    authorLoopService ods paper db res 0 authors1

/-- Embedding of `_update_paper_metadata`: pure field merge from a Semantic Scholar
record into the paper.  The Semantic Scholar id is assigned
unconditionally, exactly as in the source. -/
def updatePaperMetadata (paper : Paper) (s2 : S2PaperData) : Paper :=
  { paper with
    semantic_scholar_id := s2.paper_id
    doi := if strT s2.doi && !strT paper.doi then s2.doi else paper.doi
    publication_date := if strT s2.publication_date && !strT paper.publication_date
                        then s2.publication_date else paper.publication_date
    journal := if strT s2.venue && !strT paper.journal then s2.venue else paper.journal
    citation_count := s2.citation_count.getD 0
    keywords := if s2.keywords ≠ [] && (paper.keywords.isEmpty || paper.keywords.length < 3)
                then s2.keywords else paper.keywords
    url := if strT s2.url && (listIsInfix "scholar.google.com".data paper.url.data || paper.url = "")
           then s2.url.getD "" else paper.url
    raw_data := rawInsert paper.raw_data "semantic_scholar" }

/-- The Semantic Scholar guard of `_enrich_abstract`: the incoming
abstract is truthy and longer than 50 trimmed characters, and the stored
one is empty or the placeholder. -/
def s2AbstractHit (paper : Paper) (s2 : S2PaperData) : Bool :=
  strT s2.abstract && decide (stripLen s2.abstract > 50) &&
  (!strT paper.abstract || isPlaceholderAbstract paper.abstract)

/-- The OpenAlex fallback guard of `_enrich_abstract`: the stored
abstract is empty, the placeholder, or shorter than 50 trimmed
characters. -/
def oaFallbackNeeded (paper : Paper) : Bool :=
  !strT paper.abstract || isPlaceholderAbstract paper.abstract ||
  decide (stripLen paper.abstract < 50)

/-- Embedding of `_enrich_abstract`: Semantic Scholar first, then the OpenAlex
fallback; the OpenAlex lookups can raise.  Returns the updated paper and
the `abstract_source` value. -/
def enrichAbstract (oaDoi oaTitle : String → Except String (Option String))
    (paper : Paper) (s2 : S2PaperData) :
    Except String (Paper × Option String) :=
  let p1 := if s2AbstractHit paper s2 then { paper with abstract := s2.abstract } else paper
  let src1 : Option String := if s2AbstractHit paper s2 then some "semantic_scholar" else none
  if !s2AbstractHit paper s2 && oaFallbackNeeded paper then
    match (if strT p1.doi then oaDoi (p1.doi.getD "") else .ok none) with
    | .error e => .error e
    | .ok oaA =>
      match (if !strT oaA then oaTitle p1.title else .ok oaA) with
      | .error e => .error e
      | .ok oaB =>
        if strT oaB && decide (stripLen oaB > 50) then
          .ok ({ p1 with abstract := oaB }, some "openalex")
        else .ok (p1, src1)
  else .ok (p1, src1)

/-- Embedding of `_fetch_from_semantic_scholar`: DOI lookup when a DOI is stored, then
title search on the raw title. -/
def fetchFromSemanticScholar (o : PaperOracles) (paper : Paper) :
    Except String (Option S2PaperData) := do
  if strT paper.doi then
    let r ← o.s2ByDoi (paper.doi.getD "")
    match r with
    | some p => .ok (some p)
    | none => o.s2ByTitle paper.title
  else o.s2ByTitle paper.title

/-- Embedding of `enrich_paper`: skip when already enriched and not forced, otherwise
fetch, merge metadata, enrich the abstract, process authors, save.  Any
raise is caught and recorded; rows written before the raise stay (the
catch sits inside the `transaction.atomic` block, so nothing rolls
back). -/
def enrichPaper (o : PaperOracles) (db : Db) (paper : Paper) (force : Bool) :
    Db × PaperEnrichResults :=
  let res0 : PaperEnrichResults := {}
  if !force && strT paper.semantic_scholar_id then
    (db, { res0 with success := true, enriched := false })
  else
    match fetchFromSemanticScholar o paper with
    | .error e => (db, { res0 with errors := res0.errors ++ [e], success := false })
    | .ok none => (db, { res0 with errors := res0.errors ++ ["Not found in Semantic Scholar"] })
    | .ok (some s2p) =>
      let p1 := updatePaperMetadata paper s2p
      match enrichAbstract o.oaAbstractByDoi o.oaAbstractByTitle p1 s2p with
      | .error e => (db, { res0 with errors := res0.errors ++ [e], success := false })
      | .ok (p2, absSrc) =>
        let res1 := { res0 with abstract_source := absSrc }
        let (db2, res2, authorsOutcome) :=
          if s2p.authors ≠ [] then processAuthorsService o.s2AuthorDetails db p2 s2p.authors res1
          else (db, res1, .ok ())
        match authorsOutcome with
        | .error e => (db2, { res2 with errors := res2.errors ++ [e], success := false })
        | .ok _ =>
          (savePaper db2 p2, { res2 with success := true, enriched := true })

/-! ## `enrich_papers.py`: the multi-source cascade command

The command's `_apply_paper_data` and `_process_authors` receive a
normalized record from whichever adapter accepted; the record shape below
carries the keys those functions read.  The cascade itself rejects a
candidate with more than 50 authors before `_apply_paper_data` is ever
called, so the command's `_process_authors` only contains the
truncate-above-10 half of the Safety Guard. -/

/-- A normalized candidate record handed to `_apply_paper_data`. -/
structure CmdPaperData where
  paper_id : Option String := none
  openalex_id : Option String := none
  doi : Option String := none
  abstract : Option String := none
  publication_date : Option String := none
  venue : Option String := none
  citation_count : Option Int := none
  keywords : List String := []
  url : Option String := none
  authors : List AuthorData := []
  deriving DecidableEq, Repr

/-- The statistics dict threaded through the command. -/
structure CmdStats where
  researchers_created : Nat := 0
  researchers_updated : Nat := 0
  authorships_created : Nat := 0
  deriving DecidableEq, Repr

/-- The plain field merge of `_apply_paper_data` (lines 233-252): fill
empty fields, refresh the citation count, replace sparse keywords, fix
generic URLs. -/
def applyFieldMergeCmd (paper : Paper) (d : CmdPaperData) : Paper :=
  { paper with
    doi := if strT d.doi && !strT paper.doi then d.doi else paper.doi
    abstract := if strT d.abstract && decide (stripLen d.abstract > 50) &&
                   (!strT paper.abstract || isPlaceholderAbstract paper.abstract)
                then d.abstract else paper.abstract
    publication_date := if strT d.publication_date && !strT paper.publication_date
                        then d.publication_date else paper.publication_date
    journal := if strT d.venue && !strT paper.journal then d.venue else paper.journal
    citation_count := d.citation_count.getD paper.citation_count
    keywords := if d.keywords ≠ [] && (paper.keywords.isEmpty || paper.keywords.length < 3)
                then d.keywords else paper.keywords
    url := if strT d.url && (listIsInfix "scholar.google.com".data paper.url.data || paper.url = "")
           then d.url.getD "" else paper.url }

/-- The external-id assignment of `_apply_paper_data` (lines 254-265):
the Semantic Scholar id only when unset and unclaimed by another stored
paper, the OpenAlex id only when unset (no conflict check). -/
def applyExternalIdCmd (db : Db) (p : Paper) (d : CmdPaperData)
    (source : String) : Paper :=
  if source = "semantic_scholar" && strT d.paper_id then
    if !strT p.semantic_scholar_id then
      if db.papers.any (fun q => q.semantic_scholar_id == d.paper_id && q.id ≠ p.id) then
        p  -- another paper claims this id: log and skip the assignment
      else { p with semantic_scholar_id := d.paper_id }
    else p
  else if source = "openalex" && strT d.openalex_id then
    if !strT p.openalex_id then { p with openalex_id := d.openalex_id } else p
  else p

/-- The field-update half of `_apply_paper_data` (everything before
`paper.save()`): the plain field merge, the per-source external-id
assignment, then the raw-data merge under the source key. -/
def applyPaperFieldsCmd (db : Db) (paper : Paper) (d : CmdPaperData)
    (source : String) : Paper :=
  let p := applyExternalIdCmd db (applyFieldMergeCmd paper d) d source
  { p with raw_data := rawInsert p.raw_data source }

/-- The researcher lookup of the command's `_process_authors` (lines
302-321): one external-id strategy chosen by the `elif` chain, then the
case-insensitive name fallback. -/
def resolveResearcherCmd (db : Db) (source : String) (a : AuthorData)
    (nm : String) : Option Researcher :=
  let byId :=
    if source = "semantic_scholar" && strT a.authorId then
      findResearcherByS2Id db (a.authorId.getD "")
    else if source = "openalex" && strT a.openalex_id then
      findResearcherByOpenalexId db (a.openalex_id.getD "")
    else if strT a.orcid then
      findResearcherByOrcid db (a.orcid.getD "")
    else none
  match byId with
  | some r => some r
  | none => findResearcherByName db nm

/-- Embedding of `_create_researcher_from_author`. -/
def createResearcherFromAuthorCmd (db : Db) (nm : String) (a : AuthorData)
    (source : String) : Db × Researcher :=
  createResearcher db (fun i =>
    let base : Researcher :=
      { id := i
        name := nm
        avatar_url := some ("https://ui-avatars.com/api/?name=" ++ replaceSpaces nm ++
                            "&background=gray&color=fff")
        summary := some (nm ++ " is a researcher.")
        raw_data := [source] }
    let base :=
      if source = "semantic_scholar" && strT a.authorId then
        { base with semantic_scholar_id := a.authorId
                    url := some (s2AuthorUrl (a.authorId.getD "")) }
      else if source = "openalex" && strT a.openalex_id then
        { base with openalex_id := a.openalex_id }
      else if strT a.orcid then
        { base with orcid_id := a.orcid }
      else base
    if strT a.affiliation then { base with affiliation := a.affiliation }
    else if a.institutions ≠ [] then
      { base with affiliation := some (a.institutions.headD "") }
    else base)

/-- The external-id backfill of the command's `_process_authors` on an
already-resolved researcher: the same `elif` chain, saved only when a
branch fired. -/
def backfillResearcherCmd (db : Db) (source : String) (a : AuthorData)
    (r : Researcher) (stats : CmdStats) : Db × CmdStats × Researcher :=
  let (r1, updated) :=
    if source = "semantic_scholar" && strT a.authorId && !strT r.semantic_scholar_id then
      ({ r with semantic_scholar_id := a.authorId }, true)
    else if source = "openalex" && strT a.openalex_id && !strT r.openalex_id then
      ({ r with openalex_id := a.openalex_id }, true)
    else if strT a.orcid && !strT r.orcid_id then
      ({ r with orcid_id := a.orcid }, true)
    else (r, false)
  if updated then
    (saveResearcher db r1,
     { stats with researchers_updated := stats.researchers_updated + 1 }, r1)
  else (db, stats, r)

/-- Loop body of the command's `_process_authors`. -/
def authorLoopCmd (paper : Paper) (source : String) :
    Db → CmdStats → Nat → List AuthorData → Db × CmdStats
  | db, stats, _, [] => (db, stats)
  | db, stats, idx, a :: rest =>
    let nm : String := ⟨pyStrip a.name.data⟩
    if nm = "" then authorLoopCmd paper source db stats (idx + 1) rest
    else
      let (db1, stats1, r) :=
        match resolveResearcherCmd db source a nm with
        | none =>
          let (dbN, rN) := createResearcherFromAuthorCmd db nm a source
          (dbN, { stats with researchers_created := stats.researchers_created + 1 }, rN)
        | some r0 => backfillResearcherCmd db source a r0 stats
      if db1.authorships.any (fun x => x.paper_id == paper.id && x.researcher_id == r.id) then
        authorLoopCmd paper source db1 stats1 (idx + 1) rest
      else
        let row : Authorship :=
          { paper_id := paper.id
            researcher_id := r.id
            author_position := if idx = 0 then "First Author" else "Co-author"
            contribution_role := "Research and analysis"
            summary := "Contributed to " ++ strTake paper.title 100 ++ "..." }
        authorLoopCmd paper source
          { db1 with authorships := db1.authorships ++ [row] }
          { stats1 with authorships_created := stats1.authorships_created + 1 }
          (idx + 1) rest

/-- The command's `_process_authors`: truncate to the first author above
10 authors, then the loop.  (The reject-above-50 half of the Safety Guard
sits in `_process_paper_with_fallback`, before this is reached.) -/
def processAuthorsCmd (db : Db) (paper : Paper) (authors : List AuthorData)
    (source : String) (stats : CmdStats) : Db × CmdStats :=
  let authors1 := if authors.length > 10 then authors.take 1 else authors
  authorLoopCmd paper source db stats 0 authors1

/-! ## `researcher_enrichment_service.py`: multi-source merge and score -/

/-- An ORCID profile record (`enrich_researcher_with_orcid`), restricted
to the keys `_merge_all_data` reads. -/
structure OrcidData where
  orcid_id : Option String := none
  aliases : List String := []
  affiliation : Option String := none
  current_position : Option String := none
  affiliation_history : List String := []
  paper_count : Option Int := none
  research_interests : List String := []
  deriving DecidableEq, Repr

/-- An OpenAlex author record (`extract_author_data`), restricted to the
keys `_merge_all_data` reads. -/
structure OpenAlexData where
  openalex_id : Option String := none
  scopus_id : Option String := none
  name : Option String := none
  affiliation : Option String := none
  affiliation_history : List String := []
  h_index : Option Int := none
  i10_index : Option Int := none
  paper_count : Option Int := none
  total_citations : Option Int := none
  research_concepts : List (Option ConceptDict) := []
  deriving DecidableEq, Repr

/-- Order-preserving deduplication.  The source builds the alias
collection through a Python `set`, whose iteration order is unspecified;
only membership of the resulting list is meaningful, and first-seen order
is used here as the canonical representative. -/
def dedupStr (l : List String) : List String :=
  l.foldl (fun acc s => if acc.contains s then acc else acc ++ [s]) []

/-- Section of `_merge_all_data` for external ids (each id set only when
currently null). -/
def mergeIdsStep (s2 : S2AuthorDetails) (orc : OrcidData) (oa : OpenAlexData) :
    Researcher × List String → Researcher × List String
  | (r, fs) =>
    let (r, fs) :=
      if strT s2.author_id && !strT r.semantic_scholar_id then
        ({ r with semantic_scholar_id := s2.author_id }, fs ++ ["semantic_scholar_id"])
      else (r, fs)
    let (r, fs) :=
      if strT orc.orcid_id && !strT r.orcid_id then
        ({ r with orcid_id := orc.orcid_id }, fs ++ ["orcid_id"])
      else (r, fs)
    let (r, fs) :=
      if strT oa.openalex_id && !strT r.openalex_id then
        ({ r with openalex_id := oa.openalex_id }, fs ++ ["openalex_id"])
      else (r, fs)
    if strT oa.scopus_id && !strT r.scopus_id then
      ({ r with scopus_id := oa.scopus_id }, fs ++ ["scopus_id"])
    else (r, fs)

/-- Section of `_merge_all_data` for aliases.  The source collects the variants in
a Python `set` (unspecified iteration order); first-seen order stands in
for it, membership being the meaningful content. -/
def mergeAliasesStep (orc : OrcidData) (oa : OpenAlexData) :
    Researcher × List String → Researcher × List String
  | (r, fs) =>
    let aliases := dedupStr (r.aliases ++
      (if orc.aliases ≠ [] then orc.aliases else []) ++
      (if strT oa.name && oa.name.getD "" ≠ r.name then [oa.name.getD ""] else []))
    if aliases ≠ [] then ({ r with aliases := aliases }, fs ++ ["aliases"]) else (r, fs)

/-- Section of `_merge_all_data` for affiliation and current position
(ORCID > OpenAlex > Semantic Scholar, set only when currently null). -/
def mergeAffiliationStep (s2 : S2AuthorDetails) (orc : OrcidData) (oa : OpenAlexData) :
    Researcher × List String → Researcher × List String
  | (r, fs) =>
    let (r, fs) :=
      if !strT r.affiliation then
        let aff := pyOrStr orc.affiliation (pyOrStr oa.affiliation s2.affiliation)
        if strT aff then ({ r with affiliation := aff }, fs ++ ["affiliation"]) else (r, fs)
      else (r, fs)
    if strT orc.current_position && !strT r.current_position then
      ({ r with current_position := orc.current_position }, fs ++ ["current_position"])
    else (r, fs)

/-- Section of `_merge_all_data` for the affiliation history (ORCID entries then
OpenAlex entries, replacing the stored list when non-empty). -/
def mergeHistoryStep (orc : OrcidData) (oa : OpenAlexData) :
    Researcher × List String → Researcher × List String
  | (r, fs) =>
    let hist := orc.affiliation_history ++ oa.affiliation_history
    if hist ≠ [] then ({ r with affiliation_history := hist }, fs ++ ["affiliation_history"])
    else (r, fs)

/-- Section of `_merge_all_data` for the h-index and i10-index (OpenAlex preferred
over Semantic Scholar through Python `or`, assigned when different). -/
def mergeIndexStep (s2 : S2AuthorDetails) (oa : OpenAlexData) :
    Researcher × List String → Researcher × List String
  | (r, fs) =>
    let (r, fs) :=
      match pyOrInt oa.h_index s2.h_index with
      | some v => if v ≠ r.h_index then ({ r with h_index := v }, fs ++ ["h_index"]) else (r, fs)
      | none => (r, fs)
    match oa.i10_index with
    | some v => if v ≠ r.i10_index then ({ r with i10_index := v }, fs ++ ["i10_index"]) else (r, fs)
    | none => (r, fs)

/-- Section of `_merge_all_data` for the paper count: the maximum of the three
sources' values (missing keys default to 0), assigned when truthy and
different. -/
def mergePaperCountStep (s2 : S2AuthorDetails) (orc : OrcidData) (oa : OpenAlexData) :
    Researcher × List String → Researcher × List String
  | (r, fs) =>
    let pc := max (max (oa.paper_count.getD 0) (orc.paper_count.getD 0)) (s2.paper_count.getD 0)
    if pc ≠ 0 && pc ≠ r.paper_count then
      ({ r with paper_count := pc }, fs ++ ["paper_count"])
    else (r, fs)

/-- Section of `_merge_all_data` for total citations: OpenAlex's value if
truthy, else Semantic Scholar's citation count (not the maximum),
assigned when truthy and different. -/
def mergeCitationsStep (s2 : S2AuthorDetails) (oa : OpenAlexData) :
    Researcher × List String → Researcher × List String
  | (r, fs) =>
    let cits := (pyOrInt oa.total_citations (some (s2.citation_count.getD 0))).getD 0
    if cits ≠ 0 && cits ≠ r.total_citations then
      ({ r with total_citations := cits }, fs ++ ["total_citations"])
    else (r, fs)

/-- Section of `_merge_all_data` for research concepts: OpenAlex's list replaces
the stored one; the primary research area comes from the top concept when
currently null. -/
def mergeConceptsStep (oa : OpenAlexData) :
    Researcher × List String → Researcher × List String
  | (r, fs) =>
    if oa.research_concepts ≠ [] then
      let r1 := { r with research_concepts := oa.research_concepts }
      let fs1 := fs ++ ["research_concepts"]
      match oa.research_concepts.headD none with
      | some d =>
        if strT d.concept && !strT r1.primary_research_area then
          ({ r1 with primary_research_area := d.concept }, fs1 ++ ["primary_research_area"])
        else (r1, fs1)
      | none => (r1, fs1)
    else (r, fs)

/-- Section of `_merge_all_data` for the URL (Semantic Scholar homepage, else the
author-page URL, set only when currently null). -/
def mergeUrlStep (s2 : S2AuthorDetails) :
    Researcher × List String → Researcher × List String
  | (r, fs) =>
    if !strT r.url then
      let url := pyOrStr s2.homepage
        (if strT s2.author_id then some (s2AuthorUrl (s2.author_id.getD "")) else none)
      if strT url then ({ r with url := url }, fs ++ ["url"]) else (r, fs)
    else (r, fs)

/-- Section of `_merge_all_data` for raw data: each present source's payload is
stored under its own key. -/
def mergeRawStep (s2o : Option S2AuthorDetails) (orco : Option OrcidData)
    (oao : Option OpenAlexData) :
    Researcher × List String → Researcher × List String
  | (r, fs) =>
    let raw := r.raw_data
    let raw := if s2o.isSome then rawInsert raw "semantic_scholar" else raw
    let raw := if orco.isSome then rawInsert raw "orcid" else raw
    let raw := if oao.isSome then rawInsert raw "openalex" else raw
    ({ r with raw_data := raw }, fs ++ ["raw_data"])

/-- Embedding of `_merge_all_data`: merge the three optional source records into the
researcher, returning the updated researcher and the `updated_fields`
list.  An absent source behaves as the empty dict (`or {}`); the sections
run in source order. -/
def mergeAllData (r : Researcher) (s2o : Option S2AuthorDetails)
    (orco : Option OrcidData) (oao : Option OpenAlexData) :
    Researcher × List String :=
  let s2 := s2o.getD {}
  let orc := orco.getD {}
  let oa := oao.getD {}
  mergeRawStep s2o orco oao
    (mergeUrlStep s2
      (mergeConceptsStep oa
        (mergeCitationsStep s2 oa
          (mergePaperCountStep s2 orc oa
            (mergeIndexStep s2 oa
              (mergeHistoryStep orc oa
                (mergeAffiliationStep s2 orc oa
                  (mergeAliasesStep orc oa
                    (mergeIdsStep s2 orc oa (r, []))))))))))

/-- Embedding of `_calculate_data_quality_score`: the fixed point allocation, summed in
source order and capped at 100.  (The source accumulates a float; every
contribution is integral, so the value is a natural number.) -/
def calculate_data_quality_score (r : Researcher) : Nat :=
  min ((if strT r.semantic_scholar_id then 10 else 0) +
       (if strT r.orcid_id then 15 else 0) +
       (if strT r.openalex_id then 10 else 0) +
       (if strT r.affiliation then 5 else 0) +
       (if 0 < r.h_index then 5 else 0) +
       (if 0 < r.paper_count then 5 else 0) +
       (if 0 < r.total_citations then 5 else 0) +
       (if 0 < r.i10_index then 5 else 0) +
       (if !r.research_interests.isEmpty then 10 else 0) +
       (if !r.research_concepts.isEmpty then 5 else 0) +
       (if strT r.primary_research_area then 5 else 0) +
       (if strT r.summary then 5 else 0) +
       (if strT r.url then 5 else 0) +
       (if !r.affiliation_history.isEmpty then 5 else 0) +
       (if strT r.current_position then 5 else 0)) 100

/-- The fifteen presence tests of the quality score, in source order. -/
def qsFlags (r : Researcher) : Fin 15 → Bool :=
  ![strT r.semantic_scholar_id, strT r.orcid_id, strT r.openalex_id,
    strT r.affiliation, decide (0 < r.h_index), decide (0 < r.paper_count),
    decide (0 < r.total_citations), decide (0 < r.i10_index),
    !r.research_interests.isEmpty, !r.research_concepts.isEmpty,
    strT r.primary_research_area, strT r.summary, strT r.url,
    !r.affiliation_history.isEmpty, strT r.current_position]

/-- The point values of the quality score, in the same order. -/
def qsWeights : Fin 15 → Nat :=
  ![10, 15, 10, 5, 5, 5, 5, 5, 10, 5, 5, 5, 5, 5, 5]

/-- Rewrite every stored researcher's ORCID through `f`, leaving all
other columns alone.  A resolution step that never consults ORCID gives
the same researcher (up to id) on `db` and on `setOrcids f db`. -/
def setOrcids (f : Option String → Option String) (db : Db) : Db :=
  { db with researchers :=
      db.researchers.map (fun r => { r with orcid_id := f r.orcid_id }) }

/-! ## Concrete fixtures used by the counterexample runs -/

/-- Oracles on which every external call reports "not found". -/
def noopOracles : PaperOracles :=
  { s2ByDoi := fun _ => .ok none
    s2ByTitle := fun _ => .ok none
    s2AuthorDetails := fun _ => .ok none
    oaAbstractByDoi := fun _ => .ok none
    oaAbstractByTitle := fun _ => .ok none }

/-- A candidate record with two authors, the second carrying the author
id whose details fetch will raise. -/
def c3Candidate : S2PaperData :=
  { paper_id := some "P",
    authors := [{ name := "Alice" }, { name := "Bob", authorId := some "A2" }] }

/-- Oracles for the fault-injection run: the title search finds the
candidate, and the author-details fetch raises for author `A2`. -/
def c3Oracles : PaperOracles :=
  { s2ByDoi := fun _ => .ok none
    s2ByTitle := fun _ => .ok (some c3Candidate)
    s2AuthorDetails := fun aid => if aid = "A2" then .error "boom" else .ok none
    oaAbstractByDoi := fun _ => .ok none
    oaAbstractByTitle := fun _ => .ok none }

/-! ## Theorems -/

/-- C7 (counterexample): `clean_title` is not idempotent.  On the input
`"a...."` the first pass strips the ellipsis leaving `"a."`, and a second
pass strips the final period of the now two-character last token, giving
`"a"`. -/
theorem C7_clean_title_not_idempotent :
    ¬ (clean_title (clean_title "a....") = clean_title "a....") := by decide

/-- C7 (amended): `clean_title` maps the empty string to itself, but it is
not idempotent for all inputs: `clean_title "a...." = "a."` while
`clean_title "a." = "a"`. -/
theorem C7_clean_title_empty_and_second_pass :
    clean_title "" = "" ∧ clean_title "a...." = "a." ∧ clean_title "a." = "a" := by
  refine ⟨by decide, by decide, by decide⟩

/-- C9 (code behaviour at the failing input): `is_likely_truncated`
indexes `title[-1]` after stripping, so the empty and whitespace-only
titles raise `IndexError` (modelled as `none`) instead of returning
`True`; every non-empty under-20-character, ellipsis-ended or
unpunctuated title does return `True`. -/
theorem C9_is_likely_truncated_on_empty :
    is_likely_truncated "" = none ∧
    is_likely_truncated "   " = none ∧
    is_likely_truncated "Short." = some true ∧
    is_likely_truncated "Ends with an ellipsis..." = some true ∧
    is_likely_truncated "No terminal sentence punctuation present here" = some true ∧
    is_likely_truncated "A title long enough and properly terminated." = some false := by
  refine ⟨by decide, by decide, by decide, by decide, by decide, by decide⟩

/-- C5 (counterexample): with OpenAlex reporting 10 total citations and
Semantic Scholar reporting 100, the merge stores 10 — the OpenAlex-else-
Semantic-Scholar chain, not the maximum across reporting sources. -/
theorem C5_total_citations_not_max :
    ((mergeAllData { id := 0 } (some { citation_count := some 100 }) none
        (some { total_citations := some 10 })).1.total_citations = 10) ∧
    ((mergeAllData { id := 0 } (some { citation_count := some 100 }) none
        (some { total_citations := some 10 })).1.total_citations ≠ max 10 100) := by
  refine ⟨by decide, by decide⟩

/-- C4 (counterexample): the service's `_update_paper_metadata` assigns
the Semantic Scholar id unconditionally, overwriting a paper that already
has one and consulting no other stored paper. -/
theorem C4_service_overwrites_existing_id :
    (updatePaperMetadata { id := 1, semantic_scholar_id := some "OLD" }
        { paper_id := some "NEW" }).semantic_scholar_id = some "NEW" ∧
    strT (some "OLD") = true := by
  refine ⟨by decide, by decide⟩

/-- C6 (counterexample): when the accepting source is Semantic Scholar
and the author carries an author id, the `elif` chain never reaches the
ORCID lookup: with no Semantic Scholar id match and no name match the
resolution returns nothing although a stored researcher carries exactly
the author's ORCID. -/
theorem C6_orcid_match_skipped :
    resolveResearcherCmd
      { researchers := [{ id := 7, name := "J. Roe",
                          orcid_id := some "0000-0002-1825-0097" }] }
      "semantic_scholar"
      { authorId := some "A1", orcid := some "0000-0002-1825-0097",
        name := "Jane Roe" }
      "Jane Roe" = none ∧
    (Db.researchers
      { researchers := [{ id := 7, name := "J. Roe",
                          orcid_id := some "0000-0002-1825-0097" }] }).any
      (fun r => r.orcid_id == some "0000-0002-1825-0097") = true := by
  refine ⟨by decide, by decide⟩

/-- C2 (counterexample): a stored abstract that is non-empty, not the
placeholder, and shorter than 50 characters is overwritten by the OpenAlex
fallback of `_enrich_abstract`. -/
theorem C2_short_stored_abstract_overwritten :
    enrichAbstract (fun _ => .ok none)
      (fun _ => .ok (some "This abstract is considerably longer than the fifty character threshold."))
      { id := 1, abstract := some "Too short." } {} =
      .ok ({ id := 1,
             abstract := some "This abstract is considerably longer than the fifty character threshold." },
           some "openalex") ∧
    strT (some "Too short.") = true ∧
    isPlaceholderAbstract (some "Too short.") = false := by
  refine ⟨by rfl, by decide, by decide⟩

/-- C3 (code behaviour at the failing input): the catch sits inside the
`transaction.atomic` block, so when the author-details fetch for the
second author raises after the first author's researcher and authorship
rows were written, `enrich_paper` returns `success=False` with the error
recorded while those rows stay committed — the store is not left as it
was before the attempt. -/
theorem C3_partial_writes_survive :
    (enrichPaper c3Oracles {} { id := 1, title := "T" } false).2.success = false ∧
    (enrichPaper c3Oracles {} { id := 1, title := "T" } false).2.errors = ["boom"] ∧
    (enrichPaper c3Oracles {} { id := 1, title := "T" } false).1.researchers.length = 1 ∧
    (enrichPaper c3Oracles {} { id := 1, title := "T" } false).1.authorships.length = 1 ∧
    (enrichPaper c3Oracles {} { id := 1, title := "T" } false).1 ≠ ({} : Db) := by
  refine ⟨by decide, by decide, by decide, by decide, by decide⟩

/-- C1 (counterexample): an accepted candidate with eleven authors whose
first author name is blank creates no authorship at all (the blank name
is skipped after truncation to the first author), not exactly one. -/
theorem C1_blank_first_author_no_authorship :
    ((({ name := "" } : AuthorData) :: List.replicate 10 ({ name := "X" } : AuthorData)).length = 11) ∧
    (processAuthorsService (fun _ => .ok none) {} { id := 1, title := "T" }
        (({ name := "" } : AuthorData) :: List.replicate 10 ({ name := "X" } : AuthorData))
        {}).2.1.authorships_created = 0 ∧
    (processAuthorsService (fun _ => .ok none) {} { id := 1, title := "T" }
        (({ name := "" } : AuthorData) :: List.replicate 10 ({ name := "X" } : AuthorData))
        {}).1 = ({} : Db) := by
  refine ⟨by decide, by decide, by decide⟩

/-- C10: with `force=False` and a Semantic Scholar id already stored,
`enrich_paper` returns `success=True, enriched=False` immediately: the
store is untouched, the result counters are all zero, and the outcome is
the same under any oracles — no external source is contacted. -/
theorem C10_enrich_paper_skip (o o2 : PaperOracles) (db : Db) (p : Paper)
    (h : strT p.semantic_scholar_id = true) :
    enrichPaper o db p false = (db, { success := true, enriched := false }) ∧
    enrichPaper o db p false = enrichPaper o2 db p false := by
  constructor
  · simp [enrichPaper, h]
  · simp [enrichPaper, h]

/-- Witness for C10 at a concrete already-enriched paper. -/
theorem C10_enrich_paper_skip_witness :
    enrichPaper noopOracles {} { id := 2, semantic_scholar_id := some "S" } false
      = ({}, { success := true, enriched := false }) :=
  (C10_enrich_paper_skip noopOracles c3Oracles {}
    { id := 2, semantic_scholar_id := some "S" } (by decide)).1

/-- Every single point contribution is bounded by its weight. -/
theorem qs_if_le (f : Fin 15 → Bool) (i : Fin 15) :
    (if f i then qsWeights i else 0) ≤ qsWeights i := by
  split <;> simp

/-- The raw point sum never exceeds 100 (the weights sum to exactly
100). -/
theorem qsSum_le (f : Fin 15 → Bool) :
    (∑ i : Fin 15, if f i then qsWeights i else 0) ≤ 100 := by
  have h := Finset.sum_le_sum (s := Finset.univ) (fun i _ => qs_if_le f i)
  have htot : (∑ i : Fin 15, qsWeights i) = 100 := by decide
  omega

/-- Turning exactly one flag from off to on adds exactly that flag's
weight to the raw point sum. -/
theorem qsSum_flip (f g : Fin 15 → Bool) (j : Fin 15) (hf : f j = false)
    (hg : g j = true) (hoth : ∀ i, i ≠ j → g i = f i) :
    (∑ i : Fin 15, if g i then qsWeights i else 0) =
      (∑ i : Fin 15, if f i then qsWeights i else 0) + qsWeights j := by
  have hmem : j ∈ (Finset.univ : Finset (Fin 15)) := Finset.mem_univ j
  rw [← Finset.sum_erase_add _ _ hmem, ← Finset.sum_erase_add _ _ hmem, hf, hg]
  have hco : ∀ i ∈ Finset.univ.erase j,
      (if g i then qsWeights i else 0) = (if f i then qsWeights i else 0) := by
    intro i hi
    rw [hoth i (Finset.ne_of_mem_erase hi)]
  rw [Finset.sum_congr rfl hco]
  simp

/-- C8: the data-quality score equals the fixed point allocation over the
fifteen presence flags capped at 100, lies below 100, and strictly
increases when one previously-absent scored field becomes present with
every other flag unchanged. -/
theorem C8_quality_score_props (r r2 : Researcher) (j : Fin 15)
    (hf : qsFlags r j = false) (hg : qsFlags r2 j = true)
    (hoth : ∀ i, i ≠ j → qsFlags r2 i = qsFlags r i) :
    calculate_data_quality_score r
        = min (∑ i : Fin 15, if qsFlags r i then qsWeights i else 0) 100 ∧
    calculate_data_quality_score r ≤ 100 ∧
    calculate_data_quality_score r < calculate_data_quality_score r2 := by
  have hscore : ∀ rr : Researcher, calculate_data_quality_score rr
      = min (∑ i : Fin 15, if qsFlags rr i then qsWeights i else 0) 100 := by
    intro rr
    simp [calculate_data_quality_score, qsFlags, qsWeights, Fin.sum_univ_succ]
    omega
  refine ⟨hscore r, ?_, ?_⟩
  · rw [hscore r]; exact Nat.min_le_right _ _
  · have h2 := qsSum_le (qsFlags r2)
    have hflip := qsSum_flip (qsFlags r) (qsFlags r2) j hf hg hoth
    have hw : ∀ jj : Fin 15, 0 < qsWeights jj := by decide
    have hwj := hw j
    rw [hscore r, hscore r2, hflip]
    rw [hflip] at h2
    omega

/-- Witness for C8: filling in a previously-absent ORCID id strictly
raises the score of an otherwise-empty researcher. -/
theorem C8_quality_score_props_witness :
    calculate_data_quality_score { id := 0 } <
      calculate_data_quality_score { id := 0, orcid_id := some "0000-0002-1825-0097" } :=
  (C8_quality_score_props { id := 0 } { id := 0, orcid_id := some "0000-0002-1825-0097" }
    1 (by decide) (by decide) (by decide)).2.2

/-- The merge sections other than the paper-count one never write
`paper_count`. -/
theorem merge_steps_preserve_paper_count (s2 : S2AuthorDetails) (orc : OrcidData)
    (oa : OpenAlexData) (s2o : Option S2AuthorDetails) (orco : Option OrcidData)
    (oao : Option OpenAlexData) (x : Researcher × List String) :
    (mergeIdsStep s2 orc oa x).1.paper_count = x.1.paper_count ∧
    (mergeAliasesStep orc oa x).1.paper_count = x.1.paper_count ∧
    (mergeAffiliationStep s2 orc oa x).1.paper_count = x.1.paper_count ∧
    (mergeHistoryStep orc oa x).1.paper_count = x.1.paper_count ∧
    (mergeIndexStep s2 oa x).1.paper_count = x.1.paper_count ∧
    (mergeCitationsStep s2 oa x).1.paper_count = x.1.paper_count ∧
    (mergeConceptsStep oa x).1.paper_count = x.1.paper_count ∧
    (mergeUrlStep s2 x).1.paper_count = x.1.paper_count ∧
    (mergeRawStep s2o orco oao x).1.paper_count = x.1.paper_count := by
  rcases x with ⟨r, fs⟩
  refine ⟨?_, ?_, ?_, ?_, ?_, ?_, ?_, ?_, ?_⟩ <;>
    · simp only [mergeIdsStep, mergeAliasesStep, mergeAffiliationStep, mergeHistoryStep,
        mergeIndexStep, mergeCitationsStep, mergeConceptsStep, mergeUrlStep, mergeRawStep]
      repeat' split
      all_goals rfl

/-- The merge sections other than the total-citations one never write
`total_citations`. -/
theorem merge_steps_preserve_citations (s2 : S2AuthorDetails) (orc : OrcidData)
    (oa : OpenAlexData) (s2o : Option S2AuthorDetails) (orco : Option OrcidData)
    (oao : Option OpenAlexData) (x : Researcher × List String) :
    (mergeIdsStep s2 orc oa x).1.total_citations = x.1.total_citations ∧
    (mergeAliasesStep orc oa x).1.total_citations = x.1.total_citations ∧
    (mergeAffiliationStep s2 orc oa x).1.total_citations = x.1.total_citations ∧
    (mergeHistoryStep orc oa x).1.total_citations = x.1.total_citations ∧
    (mergeIndexStep s2 oa x).1.total_citations = x.1.total_citations ∧
    (mergePaperCountStep s2 orc oa x).1.total_citations = x.1.total_citations ∧
    (mergeConceptsStep oa x).1.total_citations = x.1.total_citations ∧
    (mergeUrlStep s2 x).1.total_citations = x.1.total_citations ∧
    (mergeRawStep s2o orco oao x).1.total_citations = x.1.total_citations := by
  rcases x with ⟨r, fs⟩
  refine ⟨?_, ?_, ?_, ?_, ?_, ?_, ?_, ?_, ?_⟩ <;>
    · simp only [mergeIdsStep, mergeAliasesStep, mergeAffiliationStep, mergeHistoryStep,
        mergeIndexStep, mergePaperCountStep, mergeConceptsStep, mergeUrlStep, mergeRawStep]
      repeat' split
      all_goals rfl

/-- Value of the paper-count section: the three-source maximum when it is
truthy, the stored value otherwise. -/
theorem mergePaperCountStep_val (s2 : S2AuthorDetails) (orc : OrcidData)
    (oa : OpenAlexData) (x : Researcher × List String) :
    (mergePaperCountStep s2 orc oa x).1.paper_count =
      if max (max (oa.paper_count.getD 0) (orc.paper_count.getD 0)) (s2.paper_count.getD 0) = 0
      then x.1.paper_count
      else max (max (oa.paper_count.getD 0) (orc.paper_count.getD 0)) (s2.paper_count.getD 0) := by
  rcases x with ⟨r, fs⟩
  simp only [mergePaperCountStep]
  by_cases h1 : max (max (oa.paper_count.getD 0) (orc.paper_count.getD 0)) (s2.paper_count.getD 0) = 0
  · simp [h1]
  · by_cases h2 : max (max (oa.paper_count.getD 0) (orc.paper_count.getD 0)) (s2.paper_count.getD 0)
        = r.paper_count
    · simp [h1, h2]
    · simp [h1, h2]

/-- Value of the total-citations section: OpenAlex's value if truthy else
Semantic Scholar's, when that is truthy; the stored value otherwise. -/
theorem mergeCitationsStep_val (s2 : S2AuthorDetails) (oa : OpenAlexData)
    (x : Researcher × List String) :
    (mergeCitationsStep s2 oa x).1.total_citations =
      if (pyOrInt oa.total_citations (some (s2.citation_count.getD 0))).getD 0 = 0
      then x.1.total_citations
      else (pyOrInt oa.total_citations (some (s2.citation_count.getD 0))).getD 0 := by
  rcases x with ⟨r, fs⟩
  simp only [mergeCitationsStep]
  by_cases h1 : (pyOrInt oa.total_citations (some (s2.citation_count.getD 0))).getD 0 = 0
  · simp [h1]
  · by_cases h2 : (pyOrInt oa.total_citations (some (s2.citation_count.getD 0))).getD 0
        = r.total_citations
    · simp [h1, h2]
    · simp [h1, h2]

/-- C5 (amended): after `_merge_all_data`, `paper_count` is the maximum
across the three sources (missing values defaulting to 0) whenever that
maximum is truthy, while `total_citations` follows the
OpenAlex-else-Semantic-Scholar chain — not the maximum — whenever that
chain's value is truthy; a falsy candidate leaves the stored value. -/
theorem C5_metric_merge_rule (r : Researcher) (s2o : Option S2AuthorDetails)
    (orco : Option OrcidData) (oao : Option OpenAlexData) :
    ((mergeAllData r s2o orco oao).1.paper_count =
      if max (max ((oao.getD {}).paper_count.getD 0) ((orco.getD {}).paper_count.getD 0))
             ((s2o.getD {}).paper_count.getD 0) = 0
      then r.paper_count
      else max (max ((oao.getD {}).paper_count.getD 0) ((orco.getD {}).paper_count.getD 0))
               ((s2o.getD {}).paper_count.getD 0)) ∧
    ((mergeAllData r s2o orco oao).1.total_citations =
      if (pyOrInt (oao.getD {}).total_citations
            (some ((s2o.getD {}).citation_count.getD 0))).getD 0 = 0
      then r.total_citations
      else (pyOrInt (oao.getD {}).total_citations
            (some ((s2o.getD {}).citation_count.getD 0))).getD 0) := by
  constructor
  · simp only [mergeAllData]
    rw [(merge_steps_preserve_paper_count (s2o.getD {}) (orco.getD {}) (oao.getD {}) s2o orco oao _).2.2.2.2.2.2.2.2,
        (merge_steps_preserve_paper_count (s2o.getD {}) (orco.getD {}) (oao.getD {}) s2o orco oao _).2.2.2.2.2.2.2.1,
        (merge_steps_preserve_paper_count (s2o.getD {}) (orco.getD {}) (oao.getD {}) s2o orco oao _).2.2.2.2.2.2.1,
        (merge_steps_preserve_paper_count (s2o.getD {}) (orco.getD {}) (oao.getD {}) s2o orco oao _).2.2.2.2.2.1,
        mergePaperCountStep_val,
        (merge_steps_preserve_paper_count (s2o.getD {}) (orco.getD {}) (oao.getD {}) s2o orco oao _).2.2.2.2.1,
        (merge_steps_preserve_paper_count (s2o.getD {}) (orco.getD {}) (oao.getD {}) s2o orco oao _).2.2.2.1,
        (merge_steps_preserve_paper_count (s2o.getD {}) (orco.getD {}) (oao.getD {}) s2o orco oao _).2.2.1,
        (merge_steps_preserve_paper_count (s2o.getD {}) (orco.getD {}) (oao.getD {}) s2o orco oao _).2.1,
        (merge_steps_preserve_paper_count (s2o.getD {}) (orco.getD {}) (oao.getD {}) s2o orco oao _).1]
  · simp only [mergeAllData]
    rw [(merge_steps_preserve_citations (s2o.getD {}) (orco.getD {}) (oao.getD {}) s2o orco oao _).2.2.2.2.2.2.2.2,
        (merge_steps_preserve_citations (s2o.getD {}) (orco.getD {}) (oao.getD {}) s2o orco oao _).2.2.2.2.2.2.2.1,
        (merge_steps_preserve_citations (s2o.getD {}) (orco.getD {}) (oao.getD {}) s2o orco oao _).2.2.2.2.2.2.1,
        mergeCitationsStep_val,
        (merge_steps_preserve_citations (s2o.getD {}) (orco.getD {}) (oao.getD {}) s2o orco oao _).2.2.2.2.2.1,
        (merge_steps_preserve_citations (s2o.getD {}) (orco.getD {}) (oao.getD {}) s2o orco oao _).2.2.2.2.1,
        (merge_steps_preserve_citations (s2o.getD {}) (orco.getD {}) (oao.getD {}) s2o orco oao _).2.2.2.1,
        (merge_steps_preserve_citations (s2o.getD {}) (orco.getD {}) (oao.getD {}) s2o orco oao _).2.2.1,
        (merge_steps_preserve_citations (s2o.getD {}) (orco.getD {}) (oao.getD {}) s2o orco oao _).2.1,
        (merge_steps_preserve_citations (s2o.getD {}) (orco.getD {}) (oao.getD {}) s2o orco oao _).1]

/-- The external-id step never writes the abstract. -/
theorem applyExternalIdCmd_abstract (db : Db) (p : Paper) (d : CmdPaperData)
    (source : String) :
    (applyExternalIdCmd db p d source).abstract = p.abstract := by
  simp only [applyExternalIdCmd]
  split_ifs <;> rfl

/-- The external-id step never writes the raw-data blob. -/
theorem applyExternalIdCmd_raw (db : Db) (p : Paper) (d : CmdPaperData)
    (source : String) :
    (applyExternalIdCmd db p d source).raw_data = p.raw_data := by
  simp only [applyExternalIdCmd]
  split_ifs <;> rfl

/-- A Semantic Scholar id already stored survives the external-id step. -/
theorem applyExternalIdCmd_s2id_of_set (db : Db) (p : Paper) (d : CmdPaperData)
    (source : String) (h : strT p.semantic_scholar_id = true) :
    (applyExternalIdCmd db p d source).semantic_scholar_id = p.semantic_scholar_id := by
  simp only [applyExternalIdCmd]
  split_ifs <;> simp_all

/-- When another stored paper claims the candidate's Semantic Scholar id,
the external-id step leaves the field alone. -/
theorem applyExternalIdCmd_s2id_of_conflict (db : Db) (p : Paper) (d : CmdPaperData)
    (source : String)
    (h : db.papers.any (fun q => q.semantic_scholar_id == d.paper_id && q.id ≠ p.id) = true) :
    (applyExternalIdCmd db p d source).semantic_scholar_id = p.semantic_scholar_id := by
  simp only [applyExternalIdCmd]
  split_ifs <;> simp_all

/-- Up to the Semantic Scholar id itself, the external-id step does not
depend on the store. -/
theorem applyExternalIdCmd_db_independent (db1 db2 : Db) (p : Paper) (d : CmdPaperData)
    (source : String) :
    ({ applyExternalIdCmd db1 p d source with semantic_scholar_id := none } : Paper) =
    { applyExternalIdCmd db2 p d source with semantic_scholar_id := none } := by
  simp only [applyExternalIdCmd]
  split_ifs <;> rfl

/-- C4 (amended): in the cascade command the Semantic Scholar id is
assigned only when currently unset and no other stored paper claims it
(on a conflict the id is skipped while the store influences no other
field of the merge); the OpenAlex id is assigned only when unset but with
no cross-paper conflict check; and the service's `_update_paper_metadata`
assigns the Semantic Scholar id unconditionally. -/
theorem C4_external_id_rules :
    (∀ (db : Db) (p : Paper) (d : CmdPaperData),
       strT p.semantic_scholar_id = true →
       (applyPaperFieldsCmd db p d "semantic_scholar").semantic_scholar_id
         = p.semantic_scholar_id) ∧
    (∀ (db : Db) (p : Paper) (d : CmdPaperData),
       db.papers.any (fun q => q.semantic_scholar_id == d.paper_id && q.id ≠ p.id) = true →
       (applyPaperFieldsCmd db p d "semantic_scholar").semantic_scholar_id
         = p.semantic_scholar_id) ∧
    (∀ (db1 db2 : Db) (p : Paper) (d : CmdPaperData) (src : String),
       ({ applyPaperFieldsCmd db1 p d src with semantic_scholar_id := none } : Paper) =
       { applyPaperFieldsCmd db2 p d src with semantic_scholar_id := none }) ∧
    (∀ (db : Db) (p : Paper) (d : CmdPaperData),
       (applyPaperFieldsCmd db p d "openalex").openalex_id =
         if !strT p.openalex_id && strT d.openalex_id then d.openalex_id
         else p.openalex_id) ∧
    (∀ (p : Paper) (s2 : S2PaperData),
       (updatePaperMetadata p s2).semantic_scholar_id = s2.paper_id) := by
  refine ⟨?_, ?_, ?_, ?_, ?_⟩
  · intro db p d h
    exact applyExternalIdCmd_s2id_of_set db (applyFieldMergeCmd p d) d "semantic_scholar" h
  · intro db p d h
    exact applyExternalIdCmd_s2id_of_conflict db (applyFieldMergeCmd p d) d
      "semantic_scholar" h
  · intro db1 db2 p d src
    have h2 := congrArg
      (fun q : Paper => ({ q with raw_data := rawInsert q.raw_data src } : Paper))
      (applyExternalIdCmd_db_independent db1 db2 (applyFieldMergeCmd p d) d src)
    exact h2
  · intro db p d
    show (applyExternalIdCmd db (applyFieldMergeCmd p d) d "openalex").openalex_id = _
    have hfm : (applyFieldMergeCmd p d).openalex_id = p.openalex_id := rfl
    by_cases h1 : strT d.openalex_id = true <;>
      by_cases h2 : strT p.openalex_id = true <;>
        simp_all [applyExternalIdCmd, hfm]
  · intro p s2
    rfl

/-- Witness for C4: a stored id survives, and a conflicting id is
skipped. -/
theorem C4_external_id_rules_witness :
    (applyPaperFieldsCmd {} { id := 1, semantic_scholar_id := some "X" }
        { paper_id := some "Y" } "semantic_scholar").semantic_scholar_id = some "X" ∧
    (applyPaperFieldsCmd { papers := [{ id := 2, semantic_scholar_id := some "Y" }] }
        { id := 1 } { paper_id := some "Y" } "semantic_scholar").semantic_scholar_id
      = none :=
  ⟨C4_external_id_rules.1 {} { id := 1, semantic_scholar_id := some "X" }
      { paper_id := some "Y" } (by decide),
   C4_external_id_rules.2.1 { papers := [{ id := 2, semantic_scholar_id := some "Y" }] }
      { id := 1 } { paper_id := some "Y" } (by decide)⟩

/-- The command merge writes the abstract exactly under its guard. -/
theorem applyPaperFieldsCmd_abstract (db : Db) (p : Paper) (d : CmdPaperData)
    (source : String) :
    (applyPaperFieldsCmd db p d source).abstract =
      if strT d.abstract && decide (stripLen d.abstract > 50) &&
         (!strT p.abstract || isPlaceholderAbstract p.abstract)
      then d.abstract else p.abstract := by
  show (applyExternalIdCmd db (applyFieldMergeCmd p d) d source).abstract = _
  rw [applyExternalIdCmd_abstract]
  rfl

/-- C2 (amended): a merge changes the stored abstract only when the new
value exceeds 50 characters after trimming; along the service path the
stored value must in addition have been empty, the placeholder, or itself
shorter than 50 trimmed characters, and along the command path it must
have been empty or the placeholder. -/
theorem C2_abstract_overwrite_only_if :
    (∀ (fD fT : String → Except String (Option String)) (p : Paper) (s2 : S2PaperData)
       (p2 : Paper) (src : Option String),
       enrichAbstract fD fT p s2 = .ok (p2, src) →
       p2.abstract ≠ p.abstract →
       stripLen p2.abstract > 50 ∧
       (strT p.abstract = false ∨ isPlaceholderAbstract p.abstract = true ∨
        stripLen p.abstract < 50)) ∧
    (∀ (db : Db) (p : Paper) (d : CmdPaperData) (source : String),
       (applyPaperFieldsCmd db p d source).abstract ≠ p.abstract →
       stripLen (applyPaperFieldsCmd db p d source).abstract > 50 ∧
       (strT p.abstract = false ∨ isPlaceholderAbstract p.abstract = true)) := by
  constructor
  · intro fD fT p s2 p2 src hok hne
    by_cases hHit : s2AbstractHit p s2 = true
    · -- the Semantic Scholar branch fired, so the fallback guard is off
      simp [enrichAbstract, hHit] at hok
      obtain ⟨h1, h2⟩ := hok
      subst h1
      have hcomp := hHit
      simp only [s2AbstractHit, Bool.and_eq_true, Bool.or_eq_true, Bool.not_eq_true',
        decide_eq_true_eq] at hcomp
      obtain ⟨⟨habs, h50⟩, hcur⟩ := hcomp
      refine ⟨h50, ?_⟩
      rcases hcur with h | h
      · exact Or.inl h
      · exact Or.inr (Or.inl h)
    · have hHit2 : s2AbstractHit p s2 = false := eq_false_of_ne_true hHit
      by_cases hFb : oaFallbackNeeded p = true
      · -- the fallback branch runs
        have hcond : strT p.abstract = false ∨ isPlaceholderAbstract p.abstract = true ∨
            stripLen p.abstract < 50 := by
          have hc := hFb
          simp only [oaFallbackNeeded, Bool.or_eq_true, Bool.not_eq_true',
            decide_eq_true_eq] at hc
          tauto
        by_cases hdoi : strT p.doi = true
        · rcases hA : fD (p.doi.getD "") with e | vA
          · simp [enrichAbstract, hHit2, hFb, hdoi, hA] at hok
          · by_cases hvA : strT vA = true
            · by_cases h50A : decide (stripLen vA > 50) = true
              · simp [enrichAbstract, hHit2, hFb, hdoi, hA, hvA, h50A] at hok
                obtain ⟨h1, h2⟩ := hok
                subst h1
                exact ⟨of_decide_eq_true h50A, hcond⟩
              · -- `oaA` truthy but too short: the stored abstract survives
                simp [enrichAbstract, hHit2, hFb, hdoi, hA, hvA,
                  eq_false_of_ne_true h50A] at hok
                obtain ⟨h1, h2⟩ := hok
                subst h1
                exact absurd rfl hne
            · -- `oaA` falsy: fall through to the title search
              have hvA2 : strT vA = false := eq_false_of_ne_true hvA
              rcases hB : fT p.title with e | vB
              · simp [enrichAbstract, hHit2, hFb, hdoi, hA, hvA2, hB] at hok
              · by_cases hvB : strT vB = true
                · by_cases h50B : decide (stripLen vB > 50) = true
                  · simp [enrichAbstract, hHit2, hFb, hdoi, hA, hvA2, hB, hvB, h50B] at hok
                    obtain ⟨h1, h2⟩ := hok
                    subst h1
                    exact ⟨of_decide_eq_true h50B, hcond⟩
                  · simp [enrichAbstract, hHit2, hFb, hdoi, hA, hvA2, hB, hvB,
                      eq_false_of_ne_true h50B] at hok
                    obtain ⟨h1, h2⟩ := hok
                    subst h1
                    exact absurd rfl hne
                · simp [enrichAbstract, hHit2, hFb, hdoi, hA, hvA2, hB,
                    eq_false_of_ne_true hvB] at hok
                  obtain ⟨h1, h2⟩ := hok
                  subst h1
                  exact absurd rfl hne
        · -- no DOI: the fallback goes straight to the title search
          have hdoi2 : strT p.doi = false := eq_false_of_ne_true hdoi
          have hnone : strT (none : Option String) = false := rfl
          rcases hB : fT p.title with e | vB
          · simp [enrichAbstract, hHit2, hFb, hdoi2, hnone, hB] at hok
          · by_cases hvB : strT vB = true
            · by_cases h50B : decide (stripLen vB > 50) = true
              · simp [enrichAbstract, hHit2, hFb, hdoi2, hnone, hB, hvB, h50B] at hok
                obtain ⟨h1, h2⟩ := hok
                subst h1
                exact ⟨of_decide_eq_true h50B, hcond⟩
              · simp [enrichAbstract, hHit2, hFb, hdoi2, hnone, hB, hvB,
                  eq_false_of_ne_true h50B] at hok
                obtain ⟨h1, h2⟩ := hok
                subst h1
                exact absurd rfl hne
            · simp [enrichAbstract, hHit2, hFb, hdoi2, hnone, hB,
                eq_false_of_ne_true hvB] at hok
              obtain ⟨h1, h2⟩ := hok
              subst h1
              exact absurd rfl hne
      · -- no branch fired: the abstract cannot have changed
        have hFb2 : oaFallbackNeeded p = false := eq_false_of_ne_true hFb
        simp [enrichAbstract, hHit2, hFb2] at hok
        obtain ⟨h1, h2⟩ := hok
        subst h1
        exact absurd rfl hne
  · intro db p d source hne
    rw [applyPaperFieldsCmd_abstract] at hne ⊢
    by_cases hc : (strT d.abstract && decide (stripLen d.abstract > 50) &&
        (!strT p.abstract || isPlaceholderAbstract p.abstract)) = true
    · rw [if_pos hc] at hne ⊢
      have hc2 := hc
      simp only [Bool.and_eq_true, Bool.or_eq_true, Bool.not_eq_true',
        decide_eq_true_eq] at hc2
      obtain ⟨⟨habs, h50⟩, hcur⟩ := hc2
      exact ⟨h50, hcur⟩
    · rw [if_neg hc] at hne
      exact absurd rfl hne

/-- Witness for C2 at the concrete fallback overwrite. -/
theorem C2_abstract_overwrite_only_if_witness :
    stripLen (some "This abstract is considerably longer than the fifty character threshold.") > 50 ∧
    (strT (some "Too short.") = false ∨ isPlaceholderAbstract (some "Too short.") = true ∨
     stripLen (some "Too short.") < 50) := by
  have h := C2_abstract_overwrite_only_if.1 (fun _ => .ok none)
    (fun _ => .ok (some "This abstract is considerably longer than the fifty character threshold."))
    { id := 1, abstract := some "Too short." } {}
    { id := 1,
      abstract := some "This abstract is considerably longer than the fifty character threshold." }
    (some "openalex") (by rfl) (by decide)
  simpa using h

/-- Lemma: `find?` over a mapped row list, for maps that leave the predicate
alone. -/
theorem find?_map_pres (g : Researcher → Researcher) (q : Researcher → Bool)
    (hq : ∀ r, q (g r) = q r) (l : List Researcher) :
    (l.map g).find? q = (l.find? q).map g := by
  induction l with
  | nil => rfl
  | cons a t ih =>
    cases hqa : q a with
    | true =>
      rw [List.map_cons, List.find?_cons_of_pos _ (by rw [hq]; exact hqa),
        List.find?_cons_of_pos _ hqa]
      rfl
    | false =>
      rw [List.map_cons, List.find?_cons_of_neg _ (by simp [hq, hqa]),
        List.find?_cons_of_neg _ (by simp [hqa]), ih]

/-- The Semantic Scholar id lookup ignores every researcher's ORCID. -/
theorem findResearcherByS2Id_setOrcids (f : Option String → Option String)
    (db : Db) (sid : String) :
    findResearcherByS2Id (setOrcids f db) sid =
      (findResearcherByS2Id db sid).map (fun r => { r with orcid_id := f r.orcid_id }) := by
  unfold findResearcherByS2Id setOrcids
  exact find?_map_pres (fun r => { r with orcid_id := f r.orcid_id })
    (fun r => r.semantic_scholar_id == some sid) (fun r => rfl) db.researchers

/-- The name lookup ignores every researcher's ORCID. -/
theorem findResearcherByName_setOrcids (f : Option String → Option String)
    (db : Db) (nm : String) :
    findResearcherByName (setOrcids f db) nm =
      (findResearcherByName db nm).map (fun r => { r with orcid_id := f r.orcid_id }) := by
  unfold findResearcherByName setOrcids
  exact find?_map_pres (fun r => { r with orcid_id := f r.orcid_id })
    (fun r => iexact r.name nm) (fun r => rfl) db.researchers

/-- C6 (amended): author resolution runs exactly one external-id strategy
before the name fallback.  When the accepting source is Semantic Scholar
and the author carries an author id, the resolved researcher is
independent of every stored ORCID (the ORCID strategy is never
consulted, even when the id lookup misses); only when no source-specific
id applies and the author carries an ORCID does the ORCID-then-name order
hold; and the service path resolves by Semantic Scholar id then name,
never consulting ORCID at all. -/
theorem C6_resolution_order :
    (∀ (db : Db) (a : AuthorData) (nm : String) (f : Option String → Option String),
       strT a.authorId = true →
       (resolveResearcherCmd (setOrcids f db) "semantic_scholar" a nm).map Researcher.id =
       (resolveResearcherCmd db "semantic_scholar" a nm).map Researcher.id) ∧
    (∀ (db : Db) (src : String) (a : AuthorData) (nm : String),
       (src = "semantic_scholar" && strT a.authorId) = false →
       (src = "openalex" && strT a.openalex_id) = false →
       strT a.orcid = true →
       resolveResearcherCmd db src a nm =
         (match findResearcherByOrcid db (a.orcid.getD "") with
          | some r => some r
          | none => findResearcherByName db nm)) ∧
    (∀ (db : Db) (aid : Option String) (nm : String) (f : Option String → Option String),
       (resolveResearcherService (setOrcids f db) aid nm).map Researcher.id =
       (resolveResearcherService db aid nm).map Researcher.id) := by
  refine ⟨?_, ?_, ?_⟩
  · intro db a nm f h
    rcases hid : findResearcherByS2Id db (a.authorId.getD "") with _ | r <;>
      rcases hnm : findResearcherByName db nm with _ | r2 <;>
        simp [resolveResearcherCmd, h, hid, hnm, findResearcherByS2Id_setOrcids,
          findResearcherByName_setOrcids]
  · intro db src a nm h1 h2 h3
    simp [resolveResearcherCmd, h1, h2, h3]
  · intro db aid nm f
    cases h : strT aid <;>
      rcases hid : findResearcherByS2Id db (aid.getD "") with _ | r <;>
        rcases hnm : findResearcherByName db nm with _ | r2 <;>
          simp [resolveResearcherService, h, hid, hnm, findResearcherByS2Id_setOrcids,
            findResearcherByName_setOrcids]

/-- Witness for C6: the ORCID-blindness of the Semantic Scholar branch
and the ORCID-then-name order of the no-source-id branch, at concrete
stores. -/
theorem C6_resolution_order_witness :
    ((resolveResearcherCmd
        (setOrcids (fun _ => none)
          { researchers := [{ id := 7, name := "J. Roe",
                              orcid_id := some "0000-0002-1825-0097" }] })
        "semantic_scholar"
        { authorId := some "A1", orcid := some "0000-0002-1825-0097", name := "Jane Roe" }
        "Jane Roe").map Researcher.id =
      (resolveResearcherCmd
        { researchers := [{ id := 7, name := "J. Roe",
                            orcid_id := some "0000-0002-1825-0097" }] }
        "semantic_scholar"
        { authorId := some "A1", orcid := some "0000-0002-1825-0097", name := "Jane Roe" }
        "Jane Roe").map Researcher.id) ∧
    (resolveResearcherCmd
        { researchers := [{ id := 7, name := "J. Roe",
                            orcid_id := some "0000-0002-1825-0097" }] }
        "crossref"
        { orcid := some "0000-0002-1825-0097", name := "Jane Roe" }
        "Jane Roe" =
      (match findResearcherByOrcid
          { researchers := [{ id := 7, name := "J. Roe",
                              orcid_id := some "0000-0002-1825-0097" }] }
          "0000-0002-1825-0097" with
       | some r => some r
       | none => findResearcherByName
          { researchers := [{ id := 7, name := "J. Roe",
                              orcid_id := some "0000-0002-1825-0097" }] }
          "Jane Roe")) :=
  ⟨C6_resolution_order.1
      { researchers := [{ id := 7, name := "J. Roe",
                          orcid_id := some "0000-0002-1825-0097" }] }
      { authorId := some "A1", orcid := some "0000-0002-1825-0097", name := "Jane Roe" }
      "Jane Roe" (fun _ => none) (by decide),
   C6_resolution_order.2.1
      { researchers := [{ id := 7, name := "J. Roe",
                          orcid_id := some "0000-0002-1825-0097" }] }
      "crossref"
      { orcid := some "0000-0002-1825-0097", name := "Jane Roe" }
      "Jane Roe" (by decide) (by decide) (by decide)⟩

/-- C1 (amended): the Safety Guard rejects a list of more than 50 authors
outright, recording the error and touching no row and no counter; a list
of 11 to 50 authors is truncated to its first author before the loop, and
that loop creates exactly one authorship — labelled "First Author" — when
the first author's trimmed name is non-empty, their resolution succeeds,
and no authorship already links the paper to the resolved researcher
(with a blank first name, or an existing authorship, it creates none); a
list of at most 10 authors is processed unmodified.  The command's
`_process_authors` applies the same above-10 truncation (its above-50
rejection sits in the cascade, before any author processing). -/
theorem C1_author_list_guard (ods : String → Except String (Option S2AuthorDetails))
    (db : Db) (p : Paper) (authors : List AuthorData) (res : PaperEnrichResults) :
    (authors.length > 50 →
       processAuthorsService ods db p authors res =
         (db, { res with errors := res.errors ++
           ["Too many authors (" ++ toString authors.length ++ "), rejected"] },
          .ok ())) ∧
    (10 < authors.length → authors.length ≤ 50 →
       processAuthorsService ods db p authors res =
         authorLoopService ods p db res 0 (authors.take 1)) ∧
    (authors.length ≤ 10 →
       processAuthorsService ods db p authors res =
         authorLoopService ods p db res 0 authors) ∧
    (∀ (a : AuthorData) (rest : List AuthorData) (db1 : Db)
       (res1 : PaperEnrichResults) (r : Researcher),
       authors = a :: rest → 10 < authors.length → authors.length ≤ 50 →
       (⟨pyStrip a.name.data⟩ : String) ≠ "" →
       getOrCreateResearcher ods db a.authorId ⟨pyStrip a.name.data⟩ res
         = .ok (db1, res1, r) →
       db1.authorships.any (fun x => x.paper_id == p.id && x.researcher_id == r.id)
         = false →
       processAuthorsService ods db p authors res =
         ({ db1 with authorships := db1.authorships ++
             [{ paper_id := p.id, researcher_id := r.id,
                author_position := "First Author",
                contribution_role := "Research design and methodology",
                summary := "Contributed to research on " ++ strTake p.title 100 ++ "..." }] },
          { res1 with authorships_created := res1.authorships_created + 1 },
          .ok ())) ∧
    (∀ (db2 : Db) (p2 : Paper) (src : String) (st : CmdStats),
       authors.length > 10 →
       processAuthorsCmd db2 p2 authors src st =
         authorLoopCmd p2 src db2 st 0 (authors.take 1)) := by
  refine ⟨?_, ?_, ?_, ?_, ?_⟩
  · intro h
    simp only [processAuthorsService]
    rw [if_pos h]
  · intro h1 h2
    simp only [processAuthorsService]
    rw [if_neg (by omega), if_pos h1]
  · intro h
    simp only [processAuthorsService]
    rw [if_neg (by omega), if_neg (by omega)]
  · intro a rest db1 res1 r ha h10 h50 hnm hg hno
    subst ha
    simp only [processAuthorsService]
    rw [if_neg (by omega), if_pos (by simpa using h10)]
    show authorLoopService ods p db res 0 [a] = _
    simp only [authorLoopService]
    rw [if_neg hnm, hg]
    simp [hno, authorLoopService]
  · intro db2 p2 src st h
    simp only [processAuthorsCmd]
    rw [if_pos h]

/-- Witness for C1: a 51-author candidate is rejected with no rows
written, and an 11-author candidate with a usable first author yields
exactly one authorship for exactly one new researcher. -/
theorem C1_author_list_guard_witness :
    (processAuthorsService (fun _ => Except.ok none) {} { id := 1, title := "T" }
        (List.replicate 51 { name := "X" }) {} =
      ({}, { errors := ["Too many authors (51), rejected"] }, Except.ok ())) ∧
    (processAuthorsService (fun _ => Except.ok none) {} { id := 1, title := "T" }
        (({ name := "Alice" } : AuthorData) :: List.replicate 10 { name := "X" }) {} =
      ({ researchers :=
           [{ id := 0, name := "Alice", affiliation := some "", url := some "",
              avatar_url := some "https://ui-avatars.com/api/?name=Alice&background=635BFF&color=fff",
              summary := some "Alice is a researcher.",
              raw_data := ["semantic_scholar"] }],
         authorships :=
           [{ paper_id := 1, researcher_id := 0,
              author_position := "First Author",
              contribution_role := "Research design and methodology",
              summary := "Contributed to research on T..." }],
         nextResearcherId := 1 },
       { researchers_created := 1, authorships_created := 1 },
       Except.ok ())) := by
  constructor
  · have h := (C1_author_list_guard (fun _ => Except.ok none) {}
      { id := 1, title := "T" } (List.replicate 51 { name := "X" }) {}).1 (by decide)
    rw [h]
    rfl
  · have h := (C1_author_list_guard (fun _ => Except.ok none) {}
      { id := 1, title := "T" }
      (({ name := "Alice" } : AuthorData) :: List.replicate 10 { name := "X" }) {}).2.2.2.1
      { name := "Alice" } (List.replicate 10 { name := "X" })
      { researchers :=
          [{ id := 0, name := "Alice", affiliation := some "", url := some "",
             avatar_url := some "https://ui-avatars.com/api/?name=Alice&background=635BFF&color=fff",
             summary := some "Alice is a researcher.",
             raw_data := ["semantic_scholar"] }],
        nextResearcherId := 1 }
      { researchers_created := 1 }
      { id := 0, name := "Alice", affiliation := some "", url := some "",
        avatar_url := some "https://ui-avatars.com/api/?name=Alice&background=635BFF&color=fff",
        summary := some "Alice is a researcher.",
        raw_data := ["semantic_scholar"] }
      rfl (by decide) (by decide) (by decide) (by rfl) (by rfl)
    rw [h]
    rfl

end ResearchHub
